import Mathlib

/-!
Verification of the script src/testfiles/makefile.py.

The script builds a bounding-box record, a 512 by 512 zero grid, assigns the
constants 1, 2, 3, 4 to its four quadrants by slice assignment, computes a
transform via the external raster.makeTransform, and persists the grid via the
external raster.saveToCOG.  The grid is embedded as a total function from
indices to integer values (the numpy array holds doubles, but every value
written is an exact small integer); the script body is embedded as a list of
statements together with an interpreter that records the calls made to the
external library.
-/

/-- A 2D numeric grid, as built by numpy.zeros((512, 512)) and mutated by
slice assignment: a total function from (row, column) to the cell value. -/
def Grid := Nat → Nat → Int

/-- The bounding-box record of makefile.py line 8: a record with exactly the
four scalar fields latMin, lonMin, latMax, lonMax. -/
structure BBox where
  latMin : Int
  lonMin : Int
  latMax : Int
  lonMax : Int

/-- bbox = {"latMin": 0, "lonMin": 0, "latMax": 10, "lonMax": 10}. -/
def bbox : BBox := { latMin := 0, lonMin := 0, latMax := 10, lonMax := 10 }

/-- np.zeros((512, 512)): the all-zero grid. -/
def zerosGrid : Grid := fun _ _ => 0

/-- Python slice assignment g[rlo:rhi, clo:chi] = v on a 2D array: every cell
inside the half-open index rectangle takes the value v, every other cell keeps
its previous value. -/
def assign (rlo rhi clo chi : Nat) (v : Int) (g : Grid) : Grid :=
  fun i j => if rlo ≤ i ∧ i < rhi ∧ clo ≤ j ∧ j < chi then v else g i j

/-- The grid after the four slice assignments of makefile.py lines 10 to 14:
data[:256, :256] = 1; data[256:, :256] = 2; data[256:, 256:] = 3;
data[:256, 256:] = 4 (slices of a 512-row, 512-column array, so an open end
means 512).  The outermost application is the last assignment executed. -/
def data : Grid :=
  assign 0 256 256 512 4
    (assign 256 512 256 512 3
      (assign 256 512 0 256 2
        (assign 0 256 0 256 1 zerosGrid)))

/-- A call made by the script into the external raster library, with the
argument values at the call site.  T is the (opaque) type of the transform
value returned by makeTransform. -/
inductive ExtCall (T : Type) where
  | makeTransformCall (width height : Nat) (b : BBox)
  | saveToCOGCall (path : String) (d : Grid) (crs : String) (t : T)
      (noDataVal : Int) (mode : String)

/-- Recognises a saveToCOG call in a call trace. -/
def ExtCall.isSave {T : Type} : ExtCall T → Bool
  | .saveToCOGCall _ _ _ _ _ _ => true
  | _ => false

/-- Recognises a makeTransform call in a call trace. -/
def ExtCall.isMakeTransform {T : Type} : ExtCall T → Bool
  | .makeTransformCall _ _ _ => true
  | _ => false

/-- One top-level statement of makefile.py, with the literal arguments that
appear in the source text. -/
inductive PyStmt where
  | assignBBoxStmt (latMin lonMin latMax lonMax : Int)
  | zerosStmt (rows cols : Nat)
  | sliceAssignStmt (rlo rhi clo chi : Nat) (v : Int)
  | transformStmt (width height : Nat)
  | saveStmt (path crs : String) (noDataVal : Int) (mode : String)

/-- The interpreter state: the script's local variables (bbox, data,
transform) and the trace of calls made so far into the external library. -/
structure PyState (T : Type) where
  bboxVar : Option BBox
  dataVar : Option Grid
  transformVar : Option T
  calls : List (ExtCall T)

/-- The state before the script runs: no variable bound, no call made. -/
def initState (T : Type) : PyState T := ⟨none, none, none, []⟩

/-- Executes one statement of the script.  The external makeTransform is the
parameter mt (its result is opaque to the script); each external call is
appended to the trace.  A statement reading an unbound variable leaves the
state unchanged (this never happens on the actual script). -/
def execStmt {T : Type} (mt : Nat → Nat → BBox → T) (s : PyState T) :
    PyStmt → PyState T
  | .assignBBoxStmt a b c d => { s with bboxVar := some ⟨a, b, c, d⟩ }
  | .zerosStmt _ _ => { s with dataVar := some zerosGrid }
  | .sliceAssignStmt rlo rhi clo chi v =>
      { s with dataVar := s.dataVar.map (assign rlo rhi clo chi v) }
  | .transformStmt w h =>
      match s.bboxVar with
      | some b =>
          { s with transformVar := some (mt w h b),
                   calls := s.calls ++ [.makeTransformCall w h b] }
      | none => s
  | .saveStmt path crs ndv mode =>
      match s.dataVar, s.transformVar with
      | some g, some t =>
          { s with calls := s.calls ++ [.saveToCOGCall path g crs t ndv mode] }
      | _, _ => s

/-- The module body of makefile.py, statement by statement, in source order. -/
def makefileScript : List PyStmt :=
  [ .assignBBoxStmt 0 0 10 10,
    .zerosStmt 512 512,
    .sliceAssignStmt 0 256 0 256 1,
    .sliceAssignStmt 256 512 0 256 2,
    .sliceAssignStmt 256 512 256 512 3,
    .sliceAssignStmt 0 256 256 512 4,
    .transformStmt 512 512,
    .saveStmt "testfile.tiff" "EPSG:4326" (-9999) "direct" ]

/-- Runs the whole script from the initial state, for a given behaviour mt of
the external makeTransform. -/
def runScript {T : Type} (mt : Nat → Nat → BBox → T) : PyState T :=
  List.foldl (execStmt mt) (initState T) makefileScript

/-- The script's two external calls with fallible behaviours: makeTransform
and saveToCOG may each signal an error (of type e).  The script itself is the
plain sequencing of makefile.py lines 17 and 19: it adds no handler, no
validation and no error of its own. -/
def runScriptE {e T F : Type} (mt : Nat → Nat → BBox → Except e T)
    (stc : String → Grid → String → T → Int → String → Except e F) :
    Except e F :=
  Except.bind (mt 512 512 bbox)
    (fun t => stc "testfile.tiff" data "EPSG:4326" t (-9999) "direct")

/-- Applies one grid mutation. -/
def applyOp (g : Grid) (a : Grid → Grid) : Grid := a g

/-- Applies a list of grid mutations left to right. -/
def applyOps (g : Grid) (l : List (Grid → Grid)) : Grid := List.foldl applyOp g l

/-- The four quadrant slice assignments of lines 11 to 14, in source order,
each as a grid mutation. -/
def quadrantOps : List (Grid → Grid) :=
  [ assign 0 256 0 256 1,
    assign 256 512 0 256 2,
    assign 256 512 256 512 3,
    assign 0 256 256 512 4 ]

/-- A makeTransform behaviour that signals an error, used to exercise error
propagation at a concrete input. -/
def mtBoom : Nat → Nat → BBox → Except Nat Unit := fun _ _ _ => Except.error 42

/-- A saveToCOG behaviour that succeeds, used alongside mtBoom. -/
def stcNever : String → Grid → String → Unit → Int → String → Except Nat Unit :=
  fun _ _ _ _ _ _ => Except.ok ()

/-- Modelled from the spec: the transform produced by raster.makeTransform,
whose implementation is repository code not present under the supplied
sources.  The spec calls it an affine transform computed from the grid
dimensions and the bounding box and opaque to this script, so it is modelled
as the record of those inputs. -/
structure TransformModel where
  width : Nat
  height : Nat
  box : BBox

/-- Modelled from the spec: raster.makeTransform(width, height, bbox) returns
a Transform computed from the grid dimensions and bounding box; the
implementation is repository code not present under the supplied sources. -/
def makeTransform (width height : Nat) (b : BBox) : TransformModel :=
  ⟨width, height, b⟩

/-- transform = makeTransform(512, 512, bbox), makefile.py line 17. -/
def transform : TransformModel := makeTransform 512 512 bbox

/-- Modelled from the spec: a Cloud-Optimized GeoTIFF file on disk, as
written by raster.saveToCOG, recording the path and the arguments persisted
into it. -/
structure COGFile where
  path : String
  contents : Grid
  crs : String
  trans : TransformModel
  noDataVal : Int
  mode : String

/-- Modelled from the spec: raster.saveToCOG(path, data, crs, transform,
noDataVal, mode) persists the grid as a COG file at the given path and
returns a FileHandle-like result; the implementation is repository code not
present under the supplied sources.  It is modelled as a pure function from
the list of files already on disk to the handle together with the new disk
contents, with no failure outcome, following spec section 8. -/
def saveToCOG (path : String) (d : Grid) (crs : String) (t : TransformModel)
    (noDataVal : Int) (mode : String) (disk : List COGFile) :
    COGFile × List COGFile :=
  let f : COGFile := ⟨path, d, crs, t, noDataVal, mode⟩
  (f, disk ++ [f])

/-- cogFile = saveToCOG("testfile.tiff", data, "EPSG:4326", transform,
noDataVal=-9999, mode="direct"), makefile.py line 19, run on an empty disk:
the returned handle. -/
def cogFile : COGFile :=
  (saveToCOG "testfile.tiff" data "EPSG:4326" transform (-9999) "direct" []).1

/-- Running the whole script against the spec-modelled library: the disk
contents it leaves behind, or an error had one been raised. -/
def runMakefileScript : Except String (List COGFile) :=
  let res := saveToCOG "testfile.tiff" data "EPSG:4326" transform (-9999) "direct" []
  Except.ok res.2

/-- Every cell of the final grid inside the 512 by 512 bounds holds one of
the four quadrant constants. -/
theorem data_mem_quadrant_values (i j : Nat) (hi : i < 512) (hj : j < 512) :
    data i j = 1 ∨ data i j = 2 ∨ data i j = 3 ∨ data i j = 4 := by
  simp only [data, assign, zerosGrid]
  split_ifs <;> omega

/-- Two slice assignments over disjoint index rectangles commute. -/
theorem assign_comm_of_disjoint (r1lo r1hi c1lo c1hi : Nat) (v1 : Int)
    (r2lo r2hi c2lo c2hi : Nat) (v2 : Int) (g : Grid)
    (hdisj : ∀ i j : Nat,
      ¬((r1lo ≤ i ∧ i < r1hi ∧ c1lo ≤ j ∧ j < c1hi) ∧
        (r2lo ≤ i ∧ i < r2hi ∧ c2lo ≤ j ∧ j < c2hi))) :
    assign r2lo r2hi c2lo c2hi v2 (assign r1lo r1hi c1lo c1hi v1 g) =
      assign r1lo r1hi c1lo c1hi v1 (assign r2lo r2hi c2lo c2hi v2 g) := by
  funext i j
  simp only [assign]
  split_ifs with h1 h2 <;> try rfl
  exact absurd ⟨h2, h1⟩ (hdisj i j)

/-- The four quadrant mutations pairwise commute: their index rectangles are
pairwise disjoint. -/
theorem quadrantOps_comm : ∀ x ∈ quadrantOps, ∀ y ∈ quadrantOps,
    ∀ z : Grid, applyOp (applyOp z x) y = applyOp (applyOp z y) x := by
  intro x hx y hy z
  simp only [quadrantOps, List.mem_cons, List.not_mem_nil, or_false] at hx hy
  simp only [applyOp]
  rcases hx with h | h | h | h <;> rcases hy with h' | h' | h' | h' <;>
    subst h <;> subst h' <;>
    first
      | rfl
      | exact assign_comm_of_disjoint _ _ _ _ _ _ _ _ _ _ z
          (by intro i j hc; omega)

/-- Claim C1: after the four slice assignments, each cell of the 512 by 512
grid holds the constant of its quadrant: 1 when i < 256 and j < 256, 2 when
256 ≤ i and j < 256, 3 when 256 ≤ i and 256 ≤ j, and 4 when i < 256 and
256 ≤ j. -/
theorem quadrant_values (i j : Nat) (hi : i < 512) (hj : j < 512) :
    (i < 256 → j < 256 → data i j = 1) ∧
    (256 ≤ i → j < 256 → data i j = 2) ∧
    (256 ≤ i → 256 ≤ j → data i j = 3) ∧
    (i < 256 → 256 ≤ j → data i j = 4) := by
  simp only [data, assign, zerosGrid]
  refine ⟨fun h1 h2 => ?_, fun h1 h2 => ?_, fun h1 h2 => ?_, fun h1 h2 => ?_⟩ <;>
    split_ifs <;> omega

/-- Witness for C1 at the concrete cell (100, 300). -/
theorem quadrant_values_witness :
    (100 : Nat) < 512 ∧ (300 : Nat) < 512 ∧
    ((100 < 256 → 300 < 256 → data 100 300 = 1) ∧
     (256 ≤ 100 → 300 < 256 → data 100 300 = 2) ∧
     (256 ≤ 100 → 256 ≤ 300 → data 100 300 = 3) ∧
     (100 < 256 → 256 ≤ 300 → data 100 300 = 4)) :=
  ⟨by decide, by decide, quadrant_values 100 300 (by decide) (by decide)⟩

/-- Claim C2: whatever value the external makeTransform returns, the script's
call trace contains exactly one saveToCOG call, and its arguments are the
path "testfile.tiff", the quadrant grid, the CRS "EPSG:4326", the value
returned by the makeTransform call, the no-data sentinel -9999 and the mode
"direct". -/
theorem saveToCOG_called_once {T : Type} (mt : Nat → Nat → BBox → T) :
    List.filter ExtCall.isSave (runScript mt).calls =
      [ExtCall.saveToCOGCall "testfile.tiff" data "EPSG:4326"
        (mt 512 512 bbox) (-9999) "direct"] :=
  rfl

/-- Claim C3: the script's call trace contains exactly one makeTransform
call, with width 512, height 512 and the bounding-box record as third
argument, and 512 by 512 are exactly the dimensions the grid was built with
(the second statement of the script). -/
theorem makeTransform_call_shape {T : Type} (mt : Nat → Nat → BBox → T) :
    List.filter ExtCall.isMakeTransform (runScript mt).calls =
      [ExtCall.makeTransformCall 512 512 bbox] ∧
    makefileScript[1]? = some (PyStmt.zerosStmt 512 512) :=
  ⟨rfl, rfl⟩

/-- Counterexample to claim C4 as stated: no cell of the 512 by 512 grid
still holds the initial value 0 after the four quadrant assignments, because
the four quadrants cover the whole grid. -/
theorem no_zero_cell_counterexample :
    ¬ ∃ i j : Nat, i < 512 ∧ j < 512 ∧ data i j = 0 := by
  rintro ⟨i, j, hi, hj, h0⟩
  rcases data_mem_quadrant_values i j hi hj with h | h | h | h <;> omega

/-- Claim C4, amended: the quadrant constants are assigned over a grid whose
initial background is all zeros, but the four quadrants cover the entire 512
by 512 grid, so after the assignments no cell holds the value 0. -/
theorem zero_background_fully_covered (i j : Nat) (hi : i < 512) (hj : j < 512) :
    zerosGrid i j = 0 ∧ data i j ≠ 0 := by
  refine ⟨rfl, ?_⟩
  rcases data_mem_quadrant_values i j hi hj with h | h | h | h <;> omega

/-- Witness for the amended C4 at the concrete cell (511, 0). -/
theorem zero_background_fully_covered_witness :
    (511 : Nat) < 512 ∧ (0 : Nat) < 512 ∧
    (zerosGrid 511 0 = 0 ∧ data 511 0 ≠ 0) :=
  ⟨by decide, by decide, zero_background_fully_covered 511 0 (by decide) (by decide)⟩

/-- Claim C5: the script neither validates nor recovers: for every behaviour
of the external library, an error signalled by the makeTransform call, or by
the saveToCOG call after a successful makeTransform, is the script's result,
unchanged; and conversely the script's result is an error only when one of
the two external calls signalled exactly that error, so the script never
raises an error of its own. -/
theorem script_error_propagation {e T F : Type}
    (mt : Nat → Nat → BBox → Except e T)
    (stc : String → Grid → String → T → Int → String → Except e F) :
    (∀ err, mt 512 512 bbox = Except.error err →
      runScriptE mt stc = Except.error err) ∧
    (∀ t err, mt 512 512 bbox = Except.ok t →
      stc "testfile.tiff" data "EPSG:4326" t (-9999) "direct" = Except.error err →
      runScriptE mt stc = Except.error err) ∧
    (∀ err, runScriptE mt stc = Except.error err →
      mt 512 512 bbox = Except.error err ∨
      ∃ t, mt 512 512 bbox = Except.ok t ∧
        stc "testfile.tiff" data "EPSG:4326" t (-9999) "direct" =
          Except.error err) := by
  refine ⟨?_, ?_, ?_⟩
  · intro err he
    unfold runScriptE
    rw [he]
    rfl
  · intro t err ht he
    unfold runScriptE
    rw [ht]
    exact he
  · intro err he
    unfold runScriptE at he
    cases hmt : mt 512 512 bbox with
    | error e2 =>
        left
        rw [hmt] at he
        simpa [Except.bind] using he
    | ok t =>
        right
        refine ⟨t, rfl, ?_⟩
        rw [hmt] at he
        exact he

/-- Witness for C5: with a makeTransform behaviour that signals the error 42
and a succeeding saveToCOG behaviour, the script's result is exactly that
error. -/
theorem script_error_propagation_witness :
    runScriptE mtBoom stcNever = Except.error 42 :=
  (script_error_propagation mtBoom stcNever).1 42 rfl

/-- Claim C6: the bounding box is built with exactly the four scalar fields
latMin, lonMin, latMax, lonMax, holding 0, 0, 10 and 10. -/
theorem bbox_fields :
    bbox = BBox.mk 0 0 10 10 ∧
    bbox.latMin = 0 ∧ bbox.lonMin = 0 ∧ bbox.latMax = 10 ∧ bbox.lonMax = 10 :=
  ⟨rfl, rfl, rfl, rfl, rfl⟩

/-- Claim C7: the script is the linear sequence build bbox, build the zero
grid, the four quadrant mutations, compute the transform, call save, in that
order; running it binds bbox and the quadrant grid and produces exactly the
two external calls, makeTransform before saveToCOG. -/
theorem script_linear_sequence {T : Type} (mt : Nat → Nat → BBox → T) :
    makefileScript =
      [ PyStmt.assignBBoxStmt 0 0 10 10,
        PyStmt.zerosStmt 512 512,
        PyStmt.sliceAssignStmt 0 256 0 256 1,
        PyStmt.sliceAssignStmt 256 512 0 256 2,
        PyStmt.sliceAssignStmt 256 512 256 512 3,
        PyStmt.sliceAssignStmt 0 256 256 512 4,
        PyStmt.transformStmt 512 512,
        PyStmt.saveStmt "testfile.tiff" "EPSG:4326" (-9999) "direct" ] ∧
    (runScript mt).bboxVar = some bbox ∧
    (runScript mt).dataVar = some data ∧
    (runScript mt).calls =
      [ ExtCall.makeTransformCall 512 512 bbox,
        ExtCall.saveToCOGCall "testfile.tiff" data "EPSG:4326"
          (mt 512 512 bbox) (-9999) "direct" ] :=
  ⟨rfl, rfl, rfl, rfl⟩

/-- Claim C8 (against the spec-modelled library): running the script
produces, without an error, a disk holding exactly one file, whose path is
testfile.tiff, and the returned handle carries that path. -/
theorem script_produces_testfile :
    (∃ files : List COGFile, runMakefileScript = Except.ok files ∧
      files.map COGFile.path = ["testfile.tiff"]) ∧
    cogFile.path = "testfile.tiff" :=
  ⟨⟨[⟨"testfile.tiff", data, "EPSG:4326", transform, -9999, "direct"⟩],
    rfl, rfl⟩, rfl⟩

/-- Claim C9: every cell of the grid passed to saveToCOG holds one of 1, 2,
3, 4, so no cell equals the no-data sentinel -9999. -/
theorem noDataVal_no_collision (i j : Nat) (hi : i < 512) (hj : j < 512) :
    (data i j = 1 ∨ data i j = 2 ∨ data i j = 3 ∨ data i j = 4) ∧
    data i j ≠ -9999 := by
  have h := data_mem_quadrant_values i j hi hj
  refine ⟨h, ?_⟩
  rcases h with h | h | h | h <;> omega

/-- Witness for C9 at the concrete cell (0, 0). -/
theorem noDataVal_no_collision_witness :
    (0 : Nat) < 512 ∧
    ((data 0 0 = 1 ∨ data 0 0 = 2 ∨ data 0 0 = 3 ∨ data 0 0 = 4) ∧
      data 0 0 ≠ -9999) :=
  ⟨by decide, noDataVal_no_collision 0 0 (by decide) (by decide)⟩

/-- Claim C10: the four quadrant slice assignments write pairwise-disjoint
index rectangles, so applying them over the zero grid in any order — any
permutation of the source order — yields the same final grid as the script's
order. -/
theorem quadrant_assigns_commute (l : List (Grid → Grid))
    (hp : l.Perm quadrantOps) :
    applyOps zerosGrid l = data :=
  (List.Perm.foldl_eq' hp.symm quadrantOps_comm zerosGrid).symm

/-- Witness for C10: applying the four assignments in reversed order yields
the same grid. -/
theorem quadrant_assigns_commute_witness :
    applyOps zerosGrid (List.reverse quadrantOps) = data :=
  quadrant_assigns_commute (List.reverse quadrantOps)
    (List.reverse_perm quadrantOps)
